import Mathlib

/-!
Shallow embedding of the session/token subsystem of the store-rating
backend: `backend/utils/jwt.js`, `backend/auth/authMiddleware.js`,
`backend/auth/authController.js` and the `findById` query of
`backend/models/User.js`.

A JWT string is modelled abstractly as a `Token`: the decoded claims, the
secret it was signed with, and a well-formedness flag (HS256 signing is
deterministic, so two tokens are the same string exactly when payload and
secret coincide; signature verification with a key succeeds exactly when
the token was signed with that key).  Wall-clock time is a `Nat` parameter
threaded through every operation; the second/millisecond unit split of the
source is collapsed into one unit, keeping every comparison operator
(strict vs non-strict) exactly as written in the source.
-/

namespace StoreRating

/-- Decoded JWT claims as produced by `jwt.sign` in `backend/utils/jwt.js`:
the clean payload fields (`userId`, `name`, `email`, `role`), the refresh
extras (`type`, `tokenId`), and the registered claims (`iss`, `aud`, `exp`). -/
structure Payload where
  userId : Nat
  name : String
  email : String
  role : String
  type : Option String
  tokenId : Option String
  iss : String
  aud : String
  exp : Option Nat
deriving DecidableEq, Repr

/-- Abstract JWT string: decoded claims, signing secret, structural
well-formedness (`wellFormed = false` stands for any string that
`jwt.decode` cannot parse). -/
structure Token where
  wellFormed : Bool
  payload : Payload
  secret : String
deriving DecidableEq, Repr

/-- `issuer` option fixed in every `jwt.sign`/`jwt.verify` call of the source. -/
def ISSUER : String := "user-management-system"

/-- `audience` option fixed in every `jwt.sign`/`jwt.verify` call of the source. -/
def AUDIENCE : String := "user-management-client"

/-- Errors thrown by the `jsonwebtoken` library as the source distinguishes
them by `error.name`: `JsonWebTokenError` (malformed / bad signature /
wrong issuer or audience), `TokenExpiredError`, and the plain
`Error('Invalid token type')` thrown by `verifyRefreshToken`. -/
inductive JwtError where
  | jsonWebTokenError
  | tokenExpiredError
  | invalidTokenType
deriving DecidableEq, Repr

/-- Environment of `backend/utils/jwt.js`: `JWT_SECRET` (already validated
to be present), the raw `JWT_REFRESH_SECRET` env value, and the two TTLs
(`JWT_EXPIRE`, `JWT_REFRESH_EXPIRE`). -/
structure JwtEnv where
  secret : String
  refreshSecretEnv : Option String
  accessTtl : Nat
  refreshTtl : Nat
deriving Repr

/-- `const JWT_REFRESH_SECRET = process.env.JWT_REFRESH_SECRET || process.env.JWT_SECRET;` -/
def JwtEnv.refreshSecret (e : JwtEnv) : String :=
  e.refreshSecretEnv.getD e.secret

/-- Result of loading `backend/utils/jwt.js`: `configError` models the
`throw new Error('JWT_SECRET environment variable is required')`;
`loaded warned` models the module completing its top level, `warned`
recording whether the `JWT_SECRET.length < 32` `console.warn` fired. -/
inductive ModuleInit where
  | configError
  | loaded (warned : Bool)
deriving DecidableEq, Repr

/-- The top-level configuration validation of `backend/utils/jwt.js`
(lines 13-20): `if (!JWT_SECRET) throw` — the throw fires when the env
variable is absent or the empty string (both falsy in JS); a nonempty
secret shorter than 32 characters merely warns. -/
def jwtModuleInit (secretEnv : Option String) : ModuleInit :=
  match secretEnv with
  | none => .configError
  | some s => if s = "" then .configError else .loaded (decide (s.length < 32))

/-- `jwt.verify(token, secret, {issuer, audience})`: reject malformed
strings and wrong-key signatures (`JsonWebTokenError`), then expiry
(`TokenExpiredError`, thrown when now ≥ exp and only when an `exp` claim
is present), then the issuer/audience options (`JsonWebTokenError`). -/
def jwtVerify (t : Token) (secret : String) (now : Nat) : Except JwtError Payload :=
  if t.wellFormed = false then .error .jsonWebTokenError
  else if t.secret ≠ secret then .error .jsonWebTokenError
  else
    match t.payload.exp with
    | some e =>
        if e ≤ now then .error .tokenExpiredError
        else if t.payload.iss ≠ ISSUER then .error .jsonWebTokenError
        else if t.payload.aud ≠ AUDIENCE then .error .jsonWebTokenError
        else .ok t.payload
    | none =>
        if t.payload.iss ≠ ISSUER then .error .jsonWebTokenError
        else if t.payload.aud ≠ AUDIENCE then .error .jsonWebTokenError
        else .ok t.payload

/-- `verifyToken` of `backend/utils/jwt.js`: verify against `JWT_SECRET`
with the fixed issuer/audience; no inspection of the `type` claim. -/
def verifyToken (e : JwtEnv) (t : Token) (now : Nat) : Except JwtError Payload :=
  jwtVerify t e.secret now

/-- `verifyRefreshToken` of `backend/utils/jwt.js`: verify against
`JWT_REFRESH_SECRET`, then require `decoded.type === 'refresh'` (else the
plain `Error('Invalid token type')`). -/
def verifyRefreshToken (e : JwtEnv) (t : Token) (now : Nat) : Except JwtError Payload :=
  match jwtVerify t e.refreshSecret now with
  | .error er => .error er
  | .ok p => if p.type = some "refresh" then .ok p else .error .invalidTokenType

/-- `generateToken` of `backend/utils/jwt.js`: sign the clean payload with
`JWT_SECRET`, `expiresIn = JWT_EXPIRE`, fixed issuer/audience.  `now` is
the signing time. -/
def generateToken (e : JwtEnv) (uid : Nat) (nm em rl : String) (now : Nat) : Token :=
  { wellFormed := true
    payload :=
      { userId := uid, name := nm, email := em, role := rl
        type := none, tokenId := none
        iss := ISSUER, aud := AUDIENCE, exp := some (now + e.accessTtl) }
    secret := e.secret }

/-- `generateRefreshToken` of `backend/utils/jwt.js`: add a fresh
`tokenId` (the `crypto.randomUUID()` value is a parameter here) and
`type: 'refresh'`, sign with `JWT_REFRESH_SECRET`, `expiresIn =
JWT_REFRESH_EXPIRE`. -/
def generateRefreshToken (e : JwtEnv) (uid : Nat) (nm em rl tid : String) (now : Nat) : Token :=
  { wellFormed := true
    payload :=
      { userId := uid, name := nm, email := em, role := rl
        type := some "refresh", tokenId := some tid
        iss := ISSUER, aud := AUDIENCE, exp := some (now + e.refreshTtl) }
    secret := e.refreshSecret }

/-- `generateTokenPair` of `backend/utils/jwt.js`: the clean payload
`{userId, email, role, name}` signed as an access token and as a refresh
token. -/
def generateTokenPair (e : JwtEnv) (uid : Nat) (em rl nm : String) (now : Nat) (tid : String) :
    Token × Token :=
  (generateToken e uid nm em rl now, generateRefreshToken e uid nm em rl tid now)

/-- The in-memory `tokenBlacklist` `Set`; insertion of an already-present
token string leaves the set unchanged. -/
def blInsert (t : Token) (bl : List Token) : List Token :=
  if t ∈ bl then bl else t :: bl

/-- `blacklistToken(token, type)` of `backend/utils/jwt.js`: verify the
token (`verifyRefreshToken` when `type === 'refresh'`, else `verifyToken`),
add it to the blacklist and return `true`; any verification error is
caught and the call returns `false` with the blacklist unchanged. -/
def blacklistToken (e : JwtEnv) (bl : List Token) (t : Token) (ty : String) (now : Nat) :
    List Token × Bool :=
  match (if ty = "refresh" then verifyRefreshToken e t now else verifyToken e t now) with
  | .ok _ => (blInsert t bl, true)
  | .error _ => (bl, false)

/-- `isTokenBlacklisted` of `backend/utils/jwt.js`: `tokenBlacklist.has(token)`. -/
def isTokenBlacklisted (bl : List Token) (t : Token) : Bool :=
  decide (t ∈ bl)

/-- `decodeToken` of `backend/utils/jwt.js`: `jwt.decode` without
verification; `null` on unparsable input. -/
def decodeToken (t : Token) : Option Payload :=
  if t.wellFormed then some t.payload else none

/-- `getTokenExpiry` of `backend/utils/jwt.js`: decode without
verification and read `exp`; `null` when the token is unparsable or the
`exp` claim is absent or `0` (falsy in `if (decoded && decoded.exp)`). -/
def getTokenExpiry (t : Token) : Option Nat :=
  match decodeToken t with
  | some p =>
      match p.exp with
      | some e => if e = 0 then none else some e
      | none => none
  | none => none

/-- `isTokenExpired` of `backend/utils/jwt.js`: `true` when the expiry is
undeterminable, else `expiry < now` (strict, as in `expiry < new Date()`). -/
def isTokenExpired (t : Token) (now : Nat) : Bool :=
  match getTokenExpiry t with
  | none => true
  | some e => decide (e < now)

/-- `cleanBlacklist` of `backend/utils/jwt.js`: delete every blacklisted
token for which `isTokenExpired` holds at the current time. -/
def cleanBlacklist (bl : List Token) (now : Nat) : List Token :=
  bl.filter (fun t => !isTokenExpired t now)

/-- JS `String.prototype.split(' ')` over the character list: cut at every
space character, keeping empty segments (`acc` is the current segment,
reversed). -/
def jsSplitSpaceAux : List Char → List Char → List String
  | [], acc => [String.mk acc.reverse]
  | c :: cs, acc =>
      if c = ' ' then String.mk acc.reverse :: jsSplitSpaceAux cs []
      else jsSplitSpaceAux cs (c :: acc)

/-- `authHeader.split(' ')` of JavaScript: e.g. `"a b"` gives `["a","b"]`,
`"a  b"` gives `["a","","b"]`, `""` gives `[""]`. -/
def jsSplitSpace (s : String) : List String :=
  jsSplitSpaceAux s.data []

/-- `extractToken` of `backend/utils/jwt.js`: `null` for an absent or
empty (falsy) header; split on a single space; require exactly two parts
with scheme `Bearer`; return the second part. -/
def extractToken (authHeader : Option String) : Option String :=
  match authHeader with
  | none => none
  | some h =>
      if h = "" then none
      else
        match jsSplitSpace h with
        | [scheme, tok] => if scheme = "Bearer" then some tok else none
        | _ => none

/-- A row of the `users` table as the auth code reads it
(`backend/models/User.js`). -/
structure UserRec where
  id : Nat
  name : String
  email : String
  role : String
  address : String
  is_active : Bool
deriving DecidableEq, Repr

/-- `User.findById` of `backend/models/User.js`: the query is
`WHERE id = $1 AND is_active = true`, so an inactive account is reported
exactly like an absent one (`null`). -/
def findById (dir : List UserRec) (uid : Nat) : Option UserRec :=
  dir.find? (fun u => decide (u.id = uid) && u.is_active)

/-- The `req.user` object attached by `authenticateToken`. -/
structure ReqUser where
  id : Nat
  name : String
  email : String
  role : String
  address : String
deriving DecidableEq, Repr

/-- Outcome of `authenticateToken`: an error response
(status + the machine-readable `error` code) or `next()` with the
attached `req.user`. -/
inductive AuthOutcome where
  | reject (status : Nat) (errorCode : String)
  | accept (user : ReqUser)
deriving DecidableEq, Repr

/-- `AuthOutcome` discriminator for stating acceptance without naming the
attached user. -/
def AuthOutcome.isAccept : AuthOutcome → Bool
  | .accept _ => true
  | .reject _ _ => false

/-- `authenticateToken` of `backend/auth/authMiddleware.js`.  `interp`
interprets a token string as an abstract `Token` (total: unparsable
strings map to ill-formed tokens).  Mirrors the source exactly: extract
the bearer token (`!token` also catches the empty string), verify it with
`verifyToken` (mapping `JsonWebTokenError` to `INVALID_TOKEN`,
`TokenExpiredError` to `TOKEN_EXPIRED`, anything else to a 500), look the
subject up with `User.findById`, reject absent (`USER_NOT_FOUND`) or
inactive (`ACCOUNT_INACTIVE`) accounts, else attach `req.user`.  Note: the
blacklist is never consulted here. -/
def authenticateToken (e : JwtEnv) (dir : List UserRec) (interp : String → Token)
    (header : Option String) (now : Nat) : AuthOutcome :=
  match extractToken header with
  | none => .reject 401 "MISSING_TOKEN"
  | some s =>
      if s = "" then .reject 401 "MISSING_TOKEN"
      else
        match verifyToken e (interp s) now with
        | .error .jsonWebTokenError => .reject 401 "INVALID_TOKEN"
        | .error .tokenExpiredError => .reject 401 "TOKEN_EXPIRED"
        | .error .invalidTokenType => .reject 500 "INTERNAL_ERROR"
        | .ok dec =>
            match findById dir dec.userId with
            | none => .reject 401 "USER_NOT_FOUND"
            | some user =>
                if user.is_active = false then .reject 401 "ACCOUNT_INACTIVE"
                else .accept
                  { id := user.id, name := user.name, email := user.email
                    role := user.role, address := user.address }

/-- Outcome of a role-check middleware: `next()` or an error response. -/
inductive MwOutcome where
  | next
  | reject (status : Nat) (errorCode : String)
deriving DecidableEq, Repr

/-- The `allowedRoles` argument of `requireRole`: a single role string or
an array of role strings. -/
inductive RoleArg where
  | single (role : String)
  | multiple (roles : List String)

/-- `Array.isArray(allowedRoles) ? allowedRoles : [allowedRoles]`. -/
def rolesOf : RoleArg → List String
  | .single r => [r]
  | .multiple rs => rs

/-- `requireRole` of `backend/auth/authMiddleware.js`: 401 when no
`req.user` is attached; 403 when the user's role is not in the allowed
list (`roles.includes(req.user.role)` — there is no implicit
`system_admin` bypass in the source); else `next()`. -/
def requireRole (allowedRoles : RoleArg) (reqUser : Option ReqUser) : MwOutcome :=
  match reqUser with
  | none => .reject 401 "NOT_AUTHENTICATED"
  | some u =>
      if decide (u.role ∈ rolesOf allowedRoles) = false then
        .reject 403 "INSUFFICIENT_PERMISSIONS"
      else .next

/-- `requireStoreOwnerOrAdmin` of `backend/auth/authMiddleware.js`: admin
access to store-owner routes is granted by listing `system_admin`
explicitly, not by a bypass inside `requireRole`. -/
def requireStoreOwnerOrAdmin : Option ReqUser → MwOutcome :=
  requireRole (.multiple ["store_owner", "system_admin"])

/-- Outcome of the `refreshToken` handler: an error response or a fresh
access/refresh pair. -/
inductive RefreshResult where
  | reject (status : Nat) (errorCode : String)
  | success (accessToken refreshToken : Token)
deriving DecidableEq, Repr

/-- `RefreshResult` discriminator. -/
def RefreshResult.isSuccess : RefreshResult → Bool
  | .success _ _ => true
  | .reject _ _ => false

/-- The `refreshToken` handler of `backend/auth/authController.js`
(lines 284-356).  Input: the module state (blacklist), the
`req.body.refreshToken` (as an abstract token, `none` when absent), the
current time, and the fresh rotation id the new refresh token will carry.
Output: the HTTP result and the blacklist after the call.  Mirrors the
source: verify with `verifyRefreshToken` (its `JsonWebTokenError` /
`TokenExpiredError` are mapped to 401 `INVALID_REFRESH_TOKEN`; the plain
`Error('Invalid token type')` falls through to the 500 branch), look up
the user (`!user || !user.is_active` rejects), blacklist the old token,
issue a new pair with `generateTokenPair`.  Note: the blacklist is never
consulted before issuing — only written to. -/
def refreshTokenHandler (e : JwtEnv) (dir : List UserRec) (bl : List Token)
    (body : Option Token) (now : Nat) (newTid : String) : RefreshResult × List Token :=
  match body with
  | none => (.reject 400 "MISSING_REFRESH_TOKEN", bl)
  | some token =>
      match verifyRefreshToken e token now with
      | .error .jsonWebTokenError => (.reject 401 "INVALID_REFRESH_TOKEN", bl)
      | .error .tokenExpiredError => (.reject 401 "INVALID_REFRESH_TOKEN", bl)
      | .error .invalidTokenType => (.reject 500 "INTERNAL_ERROR", bl)
      | .ok dec =>
          match findById dir dec.userId with
          | none => (.reject 401 "INVALID_REFRESH_TOKEN", bl)
          | some user =>
              if user.is_active = false then (.reject 401 "INVALID_REFRESH_TOKEN", bl)
              else
                let bl1 := (blacklistToken e bl token "refresh" now).1
                let pair := generateTokenPair e user.id user.email user.role user.name now newTid
                (.success pair.1 pair.2, bl1)

/-! Concrete sample environment, users and tokens used by the closed
theorems below. -/

/-- A 32-character signing secret. -/
def secretW : String := "0123456789abcdef0123456789abcdef"

/-- Sample environment: `JWT_REFRESH_SECRET` unset (so it defaults to
`JWT_SECRET`), 15-minute access TTL, 7-day refresh TTL (in seconds). -/
def eW : JwtEnv :=
  { secret := secretW, refreshSecretEnv := none, accessTtl := 900, refreshTtl := 604800 }

/-- Sample active normal user. -/
def aliceW : UserRec :=
  { id := 1, name := "Alice", email := "alice@example.com", role := "normal_user"
    address := "1 Main St", is_active := true }

/-- Sample active admin. -/
def adminW : UserRec :=
  { id := 2, name := "Root", email := "root@example.com", role := "system_admin"
    address := "HQ", is_active := true }

/-- Sample directory. -/
def dirW : List UserRec := [aliceW, adminW]

/-- Sample inactive user (id 7). -/
def bobW : UserRec :=
  { id := 7, name := "Bob", email := "bob@example.com", role := "normal_user"
    address := "2 Side St", is_active := false }

/-- Directory containing only the inactive user. -/
def dirInactiveW : List UserRec := [bobW]

/-- `req.user` value for the admin. -/
def adminReqW : ReqUser :=
  { id := 2, name := "Root", email := "root@example.com", role := "system_admin"
    address := "HQ" }

/-- Access token for Alice issued at time 0. -/
def atW : Token := generateToken eW 1 "Alice" "alice@example.com" "normal_user" 0

/-- Refresh token for Alice issued at time 0 with rotation id `tid0`. -/
def r0W : Token := generateRefreshToken eW 1 "Alice" "alice@example.com" "normal_user" "tid0" 0

/-- Access token for the inactive user Bob issued at time 0. -/
def atBobW : Token := generateToken eW 7 "Bob" "bob@example.com" "normal_user" 0

/-- A well-formed, correctly-signed token whose `exp` (5) is already in
the past at the times used below. -/
def expiredTokW : Token :=
  { wellFormed := true
    payload :=
      { userId := 1, name := "Alice", email := "alice@example.com", role := "normal_user"
        type := none, tokenId := none, iss := ISSUER, aud := AUDIENCE, exp := some 5 }
    secret := secretW }

/-- A well-formed token whose `exp` (10) equals the sweep time used below. -/
def tokExactW : Token :=
  { wellFormed := true
    payload :=
      { userId := 1, name := "Alice", email := "alice@example.com", role := "normal_user"
        type := none, tokenId := none, iss := ISSUER, aud := AUDIENCE, exp := some 10 }
    secret := secretW }

/-- Token-string interpretation for the closed theorems: `at` is Alice's
access token, `rt` her refresh token, `bt` Bob's access token; everything
else is an unparsable string. -/
def interpW : String → Token := fun s =>
  if s = "at" then atW
  else if s = "rt" then r0W
  else if s = "bt" then atBobW
  else { wellFormed := false, payload := atW.payload, secret := "" }

/-! Theorems. -/

/-- Helper: a token whose `exp` claim has passed (`x ≤ now`) is rejected
by `jwt.verify` with some error, whatever key is offered. -/
theorem jwtVerify_expired_error (t : Token) (sec : String) (now x : Nat)
    (hx : t.payload.exp = some x) (hle : x ≤ now) :
    ∃ er, jwtVerify t sec now = .error er := by
  unfold jwtVerify
  by_cases hw : t.wellFormed = false
  · exact ⟨.jsonWebTokenError, by simp [hw]⟩
  · by_cases hs : t.secret = sec
    · exact ⟨.tokenExpiredError, by simp [hw, hs, hx, hle]⟩
    · exact ⟨.jsonWebTokenError, by simp [hw, hs, hx]⟩

/-- C1: the rotation handler does not invalidate the old refresh token.
A valid refresh token `r0W` is rotated once (success, and the handler
adds `r0W` to the blacklist); yet a second rotation with the very same
(now blacklisted) `r0W` succeeds again and issues another pair, and
`verifyRefreshToken` also still accepts `r0W` — no path consults the
blacklist, so no `Revoked` failure ever occurs. -/
theorem C1_second_rotation_succeeds :
    (refreshTokenHandler eW dirW [] (some r0W) 10 "tid1").2 = [r0W] ∧
    ((refreshTokenHandler eW dirW [] (some r0W) 10 "tid1").1).isSuccess = true ∧
    isTokenBlacklisted [r0W] r0W = true ∧
    ((refreshTokenHandler eW dirW [r0W] (some r0W) 20 "tid2").1).isSuccess = true ∧
    verifyRefreshToken eW r0W 20 = .ok r0W.payload :=
  ⟨rfl, rfl, rfl, rfl, rfl⟩

/-- C2: revocation is instant in the blacklist itself (`blacklistToken`
returns `true` and `isTokenBlacklisted` is immediately `true`), but
`authenticateToken` accepts the very same unexpired blacklisted access
token and attaches the user — the middleware never consults the
blacklist, so no `Revoked` rejection exists. -/
theorem C2_blacklisted_access_token_accepted :
    (blacklistToken eW [] atW "access" 10).2 = true ∧
    isTokenBlacklisted (blacklistToken eW [] atW "access" 10).1 atW = true ∧
    authenticateToken eW dirW interpW (some "Bearer at") 20 =
      .accept { id := 1, name := "Alice", email := "alice@example.com"
                role := "normal_user", address := "1 Main St" } :=
  ⟨rfl, rfl, rfl⟩

/-- C3 counterexample: an identity with role `system_admin` is denied by
`requireRole('store_owner')` with 403 `INSUFFICIENT_PERMISSIONS` — there
is no implicit admin bypass. -/
theorem C3_admin_denied_store_owner :
    adminReqW.role = "system_admin" ∧
    requireRole (.single "store_owner") (some adminReqW) =
      .reject 403 "INSUFFICIENT_PERMISSIONS" :=
  ⟨rfl, rfl⟩

/-- C3 amended: `requireRole` passes an authenticated identity exactly
when its role is in the allowed list; admin access to store-owner routes
comes only from `requireStoreOwnerOrAdmin` listing `system_admin`
explicitly. -/
theorem C3_no_admin_bypass (allowed : RoleArg) (u : ReqUser) :
    (requireRole allowed (some u) = .next ↔ u.role ∈ rolesOf allowed) ∧
    (requireStoreOwnerOrAdmin (some u) = .next ↔
      (u.role = "store_owner" ∨ u.role = "system_admin")) := by
  have key : ∀ a : RoleArg, requireRole a (some u) = .next ↔ u.role ∈ rolesOf a := by
    intro a
    by_cases h : u.role ∈ rolesOf a
    · simp [requireRole, h]
    · simp [requireRole, h]
  refine ⟨key allowed, ?_⟩
  rw [show requireStoreOwnerOrAdmin (some u) =
        requireRole (.multiple ["store_owner", "system_admin"]) (some u) from rfl]
  rw [key (.multiple ["store_owner", "system_admin"])]
  simp [rolesOf]

/-- C4 counterexample: Alice's refresh token (kind `refresh`) is accepted
end-to-end by `authenticateToken` as an access credential — no
`WrongTokenKind` rejection exists (`JWT_REFRESH_SECRET` defaults to
`JWT_SECRET` and `verifyToken` never reads the `type` claim). -/
theorem C4_refresh_token_accepted_as_access :
    r0W.payload.type = some "refresh" ∧
    authenticateToken eW dirW interpW (some "Bearer rt") 20 =
      .accept { id := 1, name := "Alice", email := "alice@example.com"
                role := "normal_user", address := "1 Main St" } :=
  ⟨rfl, rfl⟩

/-- C4 amended: access verification performs no token-kind check: when
`JWT_REFRESH_SECRET` is unset (so it defaults to `JWT_SECRET`), any
unexpired token produced by `generateRefreshToken` is accepted by
`verifyToken` with its full refresh payload. -/
theorem C4_no_kind_check (e : JwtEnv) (he : e.refreshSecretEnv = none)
    (uid : Nat) (nm em rl tid : String) (t0 t : Nat) (ht : t < t0 + e.refreshTtl) :
    verifyToken e (generateRefreshToken e uid nm em rl tid t0) t =
      .ok (generateRefreshToken e uid nm em rl tid t0).payload := by
  unfold verifyToken jwtVerify generateRefreshToken JwtEnv.refreshSecret
  simp [he, ISSUER, AUDIENCE, Nat.not_le.mpr ht]

/-- C4 witness: concrete instance of `C4_no_kind_check`. -/
theorem C4_no_kind_check_witness :
    verifyToken eW (generateRefreshToken eW 1 "Alice" "alice@example.com" "normal_user" "tid0" 0) 5 =
      .ok (generateRefreshToken eW 1 "Alice" "alice@example.com" "normal_user" "tid0" 0).payload :=
  C4_no_kind_check eW rfl 1 "Alice" "alice@example.com" "normal_user" "tid0" 0 5 (by decide)

/-- C5 counterexample: with the 5-character secret `short` the module
loads (only warning) and signs tokens with that weak secret — no
`ConfigError` for a short secret. -/
theorem C5_short_secret_loads :
    jwtModuleInit (some "short") = .loaded true ∧
    (generateToken
        { secret := "short", refreshSecretEnv := none, accessTtl := 900, refreshTtl := 604800 }
        1 "Alice" "alice@example.com" "normal_user" 0).secret = "short" :=
  ⟨rfl, rfl⟩

/-- C5 amended: module load fails exactly when the secret is absent or
the empty string (the JS falsiness check); for any nonempty secret the
module loads, merely recording in its warning flag whether the secret is
shorter than 32 characters. -/
theorem C5_config_error_iff_absent (secretEnv : Option String) :
    (jwtModuleInit secretEnv = .configError ↔ (secretEnv = none ∨ secretEnv = some "")) ∧
    (∀ s, s ≠ "" → secretEnv = some s →
      jwtModuleInit secretEnv = .loaded (decide (s.length < 32))) := by
  constructor
  · rcases secretEnv with _ | s
    · simp [jwtModuleInit]
    · by_cases hs : s = ""
      · simp [jwtModuleInit, hs]
      · simp [jwtModuleInit, hs]
  · intro s hs h
    subst h
    simp [jwtModuleInit, hs]

/-- C5 witness: concrete instance of `C5_config_error_iff_absent`. -/
theorem C5_config_error_iff_absent_witness :
    jwtModuleInit (some "shortsecret") = .loaded (decide (("shortsecret").length < 32)) :=
  (C5_config_error_iff_absent (some "shortsecret")).2 "shortsecret" (by decide) rfl

/-- C6 counterexample: a well-formed, correctly-signed but expired token
cannot be revoked: `blacklistToken` is a no-op returning `false` and the
token is not in the blacklist afterwards. -/
theorem C6_expired_token_not_revocable :
    isTokenExpired expiredTokW 10 = true ∧
    blacklistToken eW [] expiredTokW "access" 10 = ([], false) ∧
    isTokenBlacklisted (blacklistToken eW [] expiredTokW "access" 10).1 expiredTokW = false :=
  ⟨rfl, rfl, rfl⟩

/-- C6 amended: `blacklistToken` inserts the token only when it fully
verifies; an undecodable token is a no-op, and — contrary to the claim —
an expired token is also a no-op (the function verifies rather than
decodes, so revocation of expired tokens is impossible). -/
theorem C6_blacklist_requires_verification (e : JwtEnv) (bl : List Token) (t : Token)
    (ty : String) (now : Nat) :
    (t.wellFormed = false → blacklistToken e bl t ty now = (bl, false)) ∧
    (∀ x, t.payload.exp = some x → x ≤ now → blacklistToken e bl t ty now = (bl, false)) ∧
    (∀ p, (if ty = "refresh" then verifyRefreshToken e t now else verifyToken e t now) = .ok p →
        blacklistToken e bl t ty now = (blInsert t bl, true)) := by
  refine ⟨?_, ?_, ?_⟩
  · intro hw
    have hv : ∀ sec, jwtVerify t sec now = .error .jsonWebTokenError := by
      intro sec
      unfold jwtVerify
      simp [hw]
    unfold blacklistToken
    by_cases hty : ty = "refresh"
    · simp [hty, verifyRefreshToken, hv]
    · simp [hty, verifyToken, hv]
  · intro x hx hle
    unfold blacklistToken
    by_cases hty : ty = "refresh"
    · obtain ⟨er, her⟩ := jwtVerify_expired_error t e.refreshSecret now x hx hle
      simp [hty, verifyRefreshToken, her]
    · obtain ⟨er, her⟩ := jwtVerify_expired_error t e.secret now x hx hle
      simp [hty, verifyToken, her]
  · intro p hp
    unfold blacklistToken
    rw [hp]

/-- C6 witness: concrete instances of `C6_blacklist_requires_verification`:
the expired token is a no-op; a valid refresh token is inserted. -/
theorem C6_blacklist_requires_verification_witness :
    blacklistToken eW [] expiredTokW "access" 10 = ([], false) ∧
    blacklistToken eW [] r0W "refresh" 10 = (blInsert r0W [], true) :=
  ⟨(C6_blacklist_requires_verification eW [] expiredTokW "access" 10).2.1 5 rfl (by decide),
   (C6_blacklist_requires_verification eW [] r0W "refresh" 10).2.2 r0W.payload rfl⟩

/-- C7: any bearer token that extracts and verifies but whose subject is
either absent from the directory or present only as an inactive account
is rejected with the one identical response, 401 `USER_NOT_FOUND`
(`User.findById` filters on `is_active = true`, so the middleware cannot
tell the two cases apart, let alone the caller). -/
theorem C7_lookup_failures_indistinguishable (e : JwtEnv) (dir : List UserRec)
    (interp : String → Token) (header : Option String) (now : Nat) (s : String) (p : Payload)
    (hx : extractToken header = some s) (hs : s ≠ "")
    (hv : verifyToken e (interp s) now = .ok p)
    (hdir : ∀ u ∈ dir, u.id = p.userId → u.is_active = false) :
    authenticateToken e dir interp header now = .reject 401 "USER_NOT_FOUND" := by
  have hfind : findById dir p.userId = none := by
    unfold findById
    rw [List.find?_eq_none]
    intro u hu
    simp only [Bool.and_eq_true, decide_eq_true_eq, not_and]
    intro hid hact
    rw [hdir u hu hid] at hact
    exact Bool.false_ne_true hact
  unfold authenticateToken
  rw [hx]
  simp only [if_neg hs]
  rw [hv]
  simp only [hfind]

/-- C7 witness: Bob (id 7) exists but is inactive; his valid unexpired
access token is rejected exactly as if the account did not exist. -/
theorem C7_lookup_failures_indistinguishable_witness :
    authenticateToken eW dirInactiveW interpW (some "Bearer bt") 20 =
      .reject 401 "USER_NOT_FOUND" :=
  C7_lookup_failures_indistinguishable eW dirInactiveW interpW (some "Bearer bt") 20 "bt"
    atBobW.payload rfl (by decide) rfl (by decide)

/-- C8 counterexample: at sweep time 10, a blacklist entry whose natural
expiry is exactly 10 is retained, yet its expiry is not strictly in the
future. -/
theorem C8_boundary_entry_retained :
    getTokenExpiry tokExactW = some 10 ∧
    cleanBlacklist [tokExactW] 10 = [tokExactW] ∧
    ¬ (10 < 10) :=
  ⟨rfl, rfl, by decide⟩

/-- C8 amended: a token survives `cleanBlacklist` at time `now` exactly
when it was in the blacklist and its determinable natural expiry
satisfies `now ≤ expiry` (not strictly greater); entries with
undeterminable expiry are removed, and no entry with `now ≤ expiry` is
removed. -/
theorem C8_clean_blacklist_membership (bl : List Token) (now : Nat) (t : Token) :
    t ∈ cleanBlacklist bl now ↔
      t ∈ bl ∧ ∃ x, getTokenExpiry t = some x ∧ now ≤ x := by
  unfold cleanBlacklist
  rw [List.mem_filter]
  refine and_congr_right fun _ => ?_
  unfold isTokenExpired
  rcases hg : getTokenExpiry t with _ | x
  · simp
  · simp [Nat.not_lt]

/-- C9: any `Authorization` header that is not exactly the two-part
space-separated form `Bearer <token>` (with a nonempty token) makes
`authenticateToken` reject with 401 `MISSING_TOKEN` — the token is never
even offered to signature verification. -/
theorem C9_nonbearer_header_missing_token (e : JwtEnv) (dir : List UserRec)
    (interp : String → Token) (header : Option String) (now : Nat)
    (h : ∀ s tok, tok ≠ "" → header = some s → jsSplitSpace s ≠ ["Bearer", tok]) :
    authenticateToken e dir interp header now = .reject 401 "MISSING_TOKEN" := by
  rcases header with _ | hs
  · rfl
  · by_cases hhs : hs = ""
    · simp [authenticateToken, extractToken, hhs]
    · rcases hsp : jsSplitSpace hs with _ | ⟨a, _ | ⟨b, _ | ⟨c, rest⟩⟩⟩
      · simp [authenticateToken, extractToken, hhs, hsp]
      · simp [authenticateToken, extractToken, hhs, hsp]
      · by_cases ha : a = "Bearer"
        · by_cases hb : b = ""
          · simp [authenticateToken, extractToken, hhs, hsp, ha, hb]
          · exact absurd (ha ▸ hsp) (h hs b hb rfl)
        · simp [authenticateToken, extractToken, hhs, hsp, ha]
      · simp [authenticateToken, extractToken, hhs, hsp]

/-- C9 witness: the wrong-scheme header `Token abc` yields
`MISSING_TOKEN`. -/
theorem C9_nonbearer_header_missing_token_witness :
    authenticateToken eW dirW interpW (some "Token abc") 0 = .reject 401 "MISSING_TOKEN" :=
  C9_nonbearer_header_missing_token eW dirW interpW (some "Token abc") 0 (by
    intro s tok htok hs hsp
    injection hs with hs
    subst hs
    have hev : jsSplitSpace "Token abc" = ["Token", "abc"] := rfl
    rw [hev] at hsp
    exact absurd (List.cons.inj hsp).1 (by decide))

/-- C10: `requireRole` built from the empty allowed-roles array denies
every authenticated identity (whatever its role, `system_admin`
included) with 403 `INSUFFICIENT_PERMISSIONS`; it never throws and never
passes control on. -/
theorem C10_empty_roles_denies_all (u : ReqUser) :
    requireRole (.multiple []) (some u) = .reject 403 "INSUFFICIENT_PERMISSIONS" := by
  simp [requireRole, rolesOf]

end StoreRating
